import Mathlib

/-!
Verification development for the hocuspocus-loro repository.

The wire codec (lib0 encoding), the server-side `Document` operations
(`handleLoroUpdate`, `broadcastLoroEphemeral`, `exportLoroUpdates`,
direct-connection counting) and the client-side `LoroProvider`
(`onMessage` dispatch, `startSync`, the force-sync timer, `destroy`)
are embedded shallowly: bytes are natural numbers, byte arrays and
UTF-8 strings are lists of bytes, the mutable objects become explicit
state records, and JavaScript exceptions become `Except` / `Option`.
-/

/-- A byte sequence (`Uint8Array` contents, or the UTF-8 bytes of a string). -/
abbrev Bytes := List Nat

/- ## Codec: lib0 `encoding` / `decoding`

LEB128-style variable-length unsigned integers (7 data bits per byte,
MSB continuation), length-prefixed byte arrays, and length-prefixed
UTF-8 strings.  Reading past the end of the buffer is a decode failure
(`none`). -/

/-- lib0 `encoding.writeVarUint`: emit 7 bits at a time, low bits first,
setting the continuation bit `0x80` on every byte but the last. -/
def writeVarUint (n : Nat) : List Nat :=
  if h : n < 128 then [n]
  else (128 + n % 128) :: writeVarUint (n / 128)
termination_by n
decreasing_by
  exact Nat.div_lt_self (by omega) (by omega)

/-- lib0 `decoding.readVarUint`, as a cursor over the remaining bytes:
accumulate `(b % 128) * mult` until a byte without the continuation bit. -/
def readVarUintAux : List Nat → Nat → Nat → Option (Nat × List Nat)
  | [], _, _ => none
  | b :: rest, mult, acc =>
    if b < 128 then some (acc + b * mult, rest)
    else readVarUintAux rest (mult * 128) (acc + b % 128 * mult)

/-- Decode a varuint from the head of the buffer, returning the value and
the remaining bytes. -/
def readVarUint (l : List Nat) : Option (Nat × List Nat) :=
  readVarUintAux l 1 0

/-- lib0 `encoding.writeVarUint8Array` / `writeVarString`: varuint byte
length followed by the raw bytes. -/
def writeVarBytes (u : Bytes) : List Nat :=
  writeVarUint u.length ++ u

/-- lib0 `decoding.readVarUint8Array` / `readVarString`: read a varuint
length, then that many bytes; fail if the buffer is too short. -/
def readVarBytes (l : List Nat) : Option (Bytes × List Nat) :=
  match readVarUint l with
  | none => none
  | some (len, rest) =>
    if len ≤ rest.length then some (rest.take len, rest.drop len) else none

theorem readVarUintAux_write (n : Nat) : ∀ (mult acc : Nat) (rest : List Nat),
    readVarUintAux (writeVarUint n ++ rest) mult acc = some (acc + n * mult, rest) := by
  induction n using Nat.strong_induction_on with
  | _ n ih =>
    intro mult acc rest
    rw [writeVarUint]
    by_cases h : n < 128
    · simp [h, readVarUintAux]
    · have hb : ¬ (128 + n % 128 < 128) := by omega
      have hmod : (128 + n % 128) % 128 = n % 128 := by omega
      simp only [h, dite_false, List.cons_append, readVarUintAux, if_neg hb, hmod]
      rw [ih (n / 128) (Nat.div_lt_self (by omega) (by omega))]
      have h2 : acc + n % 128 * mult + n / 128 * (mult * 128) = acc + n * mult := by
        conv_rhs => rw [← Nat.mod_add_div n 128]
        ring
      rw [h2]

theorem readVarUint_write (n : Nat) (rest : List Nat) :
    readVarUint (writeVarUint n ++ rest) = some (n, rest) := by
  unfold readVarUint
  rw [readVarUintAux_write]
  simp

theorem readVarBytes_write (u : Bytes) (rest : List Nat) :
    readVarBytes (writeVarBytes u ++ rest) = some (u, rest) := by
  unfold writeVarBytes readVarBytes
  rw [List.append_assoc, readVarUint_write]
  have hle : u.length ≤ (u ++ rest).length := by
    simp [List.length_append]
  simp [hle, List.take_left, List.drop_left]

/- ## Message type tags -/

/-- Modelled from the spec: the provider's `types.ts` (the `MessageType`
enum) is not under `src/`.  Per §6.1 the numeric tags form a stable
contiguous block; the Loro message kinds extend the base hocuspocus
enum (`Auth = 2`).  No claim depends on the concrete values, only on
their distinctness and on which tag each handler matches. -/
def MessageType.Auth : Nat := 2

/-- Modelled from the spec: see `MessageType.Auth`. -/
def MessageType.LoroUpdate : Nat := 9

/-- Modelled from the spec: see `MessageType.Auth`. -/
def MessageType.LoroSyncRequest : Nat := 10

/-- Modelled from the spec: see `MessageType.Auth`. -/
def MessageType.LoroSyncBatch : Nat := 11

/-- Modelled from the spec: see `MessageType.Auth`. -/
def MessageType.LoroEphemeral : Nat := 12

/- ## Server side: `Document` (src/packages/server/src/Document.ts)

The mutable `Document` object becomes the record `DocumentState`; a
call that sends frames and fires callbacks returns a `HandleResult`
listing the state after the call, the enqueued `(connection, frame)`
pairs in send order, the `onLoroUpdate` callback invocations, and the
`console.error` lines. -/

/-- A websocket `Connection`; object identity (`===`) is modelled by the
identifier, which is the key of the `connections` map. -/
structure Conn where
  id : Nat
deriving DecidableEq, Repr

/-- Result of `loroDoc.export(...)`: a JS call can return a single
`Uint8Array`, an array of them, or throw. -/
inductive ExportResult where
  | single (u : Bytes)
  | multiple (us : List Bytes)
  | throws (msg : String)
deriving DecidableEq, Repr

/-- The server-held `LoroDoc` replica, by its observable interface:
the updates imported so far, which updates `import` accepts (a
rejected update throws), and what `export` returns with and without a
`from` version vector. -/
structure LoroDocModel where
  imported : List Bytes
  importOk : Bytes → Bool
  exportFn : Option Bytes → ExportResult

/-- `loroDoc.import(update)`: appends to the replica on success,
throws (`Except.error`) on rejection. -/
def LoroDocModel.importUpdate (d : LoroDocModel) (u : Bytes) : Except String LoroDocModel :=
  if d.importOk u then Except.ok { d with imported := d.imported ++ [u] }
  else Except.error "ImportError"

/-- The state of a server `Document`: its name (UTF-8 bytes), the
append-only `loroUpdates` store, the optional `loroDoc` replica, the
registered connections in map iteration order (the map is keyed by
websocket, so the list has no duplicates), and
`directConnectionsCount`. -/
structure DocumentState where
  name : Bytes
  loroUpdates : List Bytes
  loroDoc : Option LoroDocModel
  connections : List Conn
  directConnectionsCount : Int

/-- Modelled from the spec: the server-side `OutgoingMessage` builder is
not under `src/`; per §6.1 `writeLoroUpdate` produces
`varstring(documentName) varuint(LoroUpdate) varbytes(update)`. -/
def serverLoroUpdateFrame (name update : Bytes) : Bytes :=
  writeVarBytes name ++ writeVarUint MessageType.LoroUpdate ++ writeVarBytes update

/-- Modelled from the spec: the server-side `OutgoingMessage` builder is
not under `src/`; per §6.1 `writeLoroEphemeral` produces
`varstring(documentName) varuint(LoroEphemeral) varbytes(update)`. -/
def serverLoroEphemeralFrame (name update : Bytes) : Bytes :=
  writeVarBytes name ++ writeVarUint MessageType.LoroEphemeral ++ writeVarBytes update

/-- What a `Document` method call did: the document afterwards, the
`conn.send(frame)` calls in order, the `onLoroUpdate(document, origin,
update)` callback invocations, and the `console.error` log lines. -/
structure HandleResult where
  doc : DocumentState
  sends : List (Conn × Bytes)
  loroUpdateCallbacks : List (Option Conn × Bytes)
  loggedErrors : List String

/-- The `forEach` body in `handleLoroUpdate` / `broadcastLoroEphemeral`:
`if (origin && conn === origin) return;` — keep a connection unless an
origin was given and it is that origin. -/
def keepConn (origin : Option Conn) (conn : Conn) : Bool :=
  match origin with
  | some o => decide (conn ≠ o)
  | none => true

/-- `Document.handleLoroUpdate(update, origin?)`: push onto
`loroUpdates`; if a `loroDoc` is present, try to import (an import
error is logged and swallowed); build one `LoroUpdate` frame and send
it to every connection except the origin; finally invoke the
`onLoroUpdate` callback. -/
def handleLoroUpdate (d : DocumentState) (update : Bytes) (origin : Option Conn) :
    HandleResult :=
  let d1 : DocumentState := { d with loroUpdates := d.loroUpdates ++ [update] }
  let imported : DocumentState × List String :=
    match d1.loroDoc with
    | some ld =>
      match ld.importUpdate update with
      | Except.ok ld2 => ({ d1 with loroDoc := some ld2 }, [])
      | Except.error e => (d1, ["Failed to import Loro update: " ++ e])
    | none => (d1, [])
  let d2 := imported.1
  let message := serverLoroUpdateFrame d.name update
  { doc := d2
    sends := (d2.connections.filter (keepConn origin)).map (fun conn => (conn, message))
    loroUpdateCallbacks := [(origin, update)]
    loggedErrors := imported.2 }

/-- `Document.broadcastLoroEphemeral(update, origin?)`: build one
`LoroEphemeral` frame and send it to every connection except the
origin; nothing is stored and no callback fires. -/
def broadcastLoroEphemeral (d : DocumentState) (update : Bytes) (origin : Option Conn) :
    HandleResult :=
  let message := serverLoroEphemeralFrame d.name update
  { doc := d
    sends := (d.connections.filter (keepConn origin)).map (fun conn => (conn, message))
    loroUpdateCallbacks := []
    loggedErrors := [] }

/-- `Document.exportLoroUpdates(versionVector?)`: with a replica and a
version vector, try the incremental export (wrapping a single
`Uint8Array` in a one-element array); on a throw, log and fall
through.  With a replica and no version vector (or after the first
throw), try the full export the same way.  Otherwise fall back to the
stored `loroUpdates`.  Returns the exported updates and the
`console.error` lines. -/
def exportLoroUpdates (d : DocumentState) (versionVector : Option Bytes) :
    List Bytes × List String :=
  let step1 : Option (List Bytes) × List String :=
    match d.loroDoc, versionVector with
    | some ld, some vv =>
      match ld.exportFn (some vv) with
      | ExportResult.single u => (some [u], [])
      | ExportResult.multiple us => (some us, [])
      | ExportResult.throws e =>
        (none, ["Failed to export Loro updates with version vector: " ++ e])
    | _, _ => (none, [])
  match step1 with
  | (some r, logs) => (r, logs)
  | (none, logs1) =>
    match d.loroDoc with
    | some ld =>
      match ld.exportFn none with
      | ExportResult.single u => ([u], logs1)
      | ExportResult.multiple us => (us, logs1)
      | ExportResult.throws e =>
        (d.loroUpdates, logs1 ++ ["Failed to export Loro updates: " ++ e])
    | none => (d.loroUpdates, logs1)

/-- `Document.addDirectConnection()`. -/
def addDirectConnection (d : DocumentState) : DocumentState :=
  { d with directConnectionsCount := d.directConnectionsCount + 1 }

/-- `Document.removeDirectConnection()`: decrements only when the count
is positive. -/
def removeDirectConnection (d : DocumentState) : DocumentState :=
  if d.directConnectionsCount > 0 then
    { d with directConnectionsCount := d.directConnectionsCount - 1 }
  else d

/-- `Document.getConnectionsCount()`: `connections.size +
directConnectionsCount`. -/
def getConnectionsCount (d : DocumentState) : Int :=
  (d.connections.length : Int) + d.directConnectionsCount

/-- One call in a sequence of direct-connection operations. -/
inductive DirectOp where
  | add
  | remove
deriving DecidableEq, Repr

/-- Run a sequence of `addDirectConnection` / `removeDirectConnection`
calls. -/
def applyDirectOps (d : DocumentState) : List DirectOp → DocumentState
  | [] => d
  | DirectOp.add :: ops => applyDirectOps (addDirectConnection d) ops
  | DirectOp.remove :: ops => applyDirectOps (removeDirectConnection d) ops

/-- A freshly constructed `Document`: empty update store, no replica,
no connections, `directConnectionsCount = 0`. -/
def newDocument (name : Bytes) : DocumentState :=
  { name := name
    loroUpdates := []
    loroDoc := none
    connections := []
    directConnectionsCount := 0 }

/- ## Client side: `LoroProvider` (src/packages/provider/src/LoroProvider.ts)
and the outgoing message builders (src/packages/provider/src/OutgoingMessages) -/

/-- The client-held `LoroDoc`, by the interface the provider uses in
`startSync`: whether `doc.oplogVersion` exists, and what
`JSON.stringify(doc.oplogVersion())` yields — the UTF-8 bytes of the
JSON string, or a throw. -/
structure ClientDoc where
  hasOplogVersion : Bool
  versionJSONResult : Except String Bytes

/-- The provider's force-sync configuration value: the literal `false`,
or a number of milliseconds. -/
inductive ForceSyncSetting where
  | off
  | every (n : Int)
deriving DecidableEq, Repr

/-- The slice of `CompleteLoroProviderConfiguration` the formalised
claims read: the document name (UTF-8 bytes), the optional `doc`, the
optional ephemeral store, and `forceSyncInterval`. -/
structure ProviderConfig where
  name : Bytes
  doc : Option ClientDoc
  hasEphemeralStore : Bool
  forceSyncInterval : ForceSyncSetting

/-- `LoroSyncRequestMessage.get(args)`:
`varstring(documentName) varuint(LoroSyncRequest) varstring(versionJSON || "")`. -/
def loroSyncRequestMessageGet (documentName : Bytes) (versionJSON : Option Bytes) : Bytes :=
  writeVarBytes documentName ++ writeVarUint MessageType.LoroSyncRequest ++
    writeVarBytes (versionJSON.getD [])

/-- `LoroUpdateMessage.get(args)`:
`varstring(documentName) varuint(LoroUpdate) varbytes(update)`. -/
def loroUpdateMessageGet (documentName update : Bytes) : Bytes :=
  writeVarBytes documentName ++ writeVarUint MessageType.LoroUpdate ++ writeVarBytes update

/-- `LoroEphemeralMessage.get(args)`:
`varstring(documentName) varuint(LoroEphemeral) varbytes(update)`. -/
def loroEphemeralMessageGet (documentName update : Bytes) : Bytes :=
  writeVarBytes documentName ++ writeVarUint MessageType.LoroEphemeral ++ writeVarBytes update

/-- The `versionJSON` computed inside `LoroProvider.startSync`:
`JSON.stringify(doc.oplogVersion())` when `doc?.oplogVersion` exists,
left `undefined` when it does not or when the call throws. -/
def startSyncVersionJSON (cfg : ProviderConfig) : Option Bytes :=
  match cfg.doc with
  | none => none
  | some d =>
    if d.hasOplogVersion then
      match d.versionJSONResult with
      | Except.ok j => some j
      | Except.error _ => none
    else none

/-- `LoroProvider.startSync()`: the `LoroSyncRequest` frame it sends. -/
def startSyncFrame (cfg : ProviderConfig) : Bytes :=
  loroSyncRequestMessageGet cfg.name (startSyncVersionJSON cfg)

/-- `LoroProvider.send`: silently drops the frame while the provider is
not attached. -/
def sendModel (isAttached : Bool) (frame : Bytes) : List Bytes :=
  if isAttached then [frame] else []

/-- The constructor's force-sync registration: a timer is created when
`forceSyncInterval` is truthy and a number (so for any non-zero
number), with that period. -/
def constructorForceSyncTimer (cfg : ProviderConfig) : Option Int :=
  match cfg.forceSyncInterval with
  | ForceSyncSetting.off => none
  | ForceSyncSetting.every n => if n ≠ 0 then some n else none

/-- One tick of the force-sync timer: `forceSync()` calls `startSync()`,
which `send`s a `LoroSyncRequest` frame. -/
def forceSyncTick (cfg : ProviderConfig) (isAttached : Bool) : List Bytes :=
  sendModel isAttached (startSyncFrame cfg)

/-- The observable effects of one `LoroProvider.onMessage` call: whether
the auth adapter ran, the `doc.import` calls in order, and the
`ephemeralStore.apply` calls. -/
structure MsgEffects where
  authHandled : Bool
  docImportsSeq : List Bytes
  ephemeralApplied : List Bytes
deriving DecidableEq, Repr

/-- The `LoroSyncBatch` loop body run `count` times: each iteration
reads one length-prefixed update from the cursor. -/
def readBatchUpdates : Nat → List Nat → Option (List Bytes × List Nat)
  | 0, l => some ([], l)
  | n + 1, l =>
    match readVarBytes l with
    | none => none
    | some (u, rest) =>
      match readBatchUpdates n rest with
      | none => none
      | some (us, rest2) => some (u :: us, rest2)

/-- `LoroProvider.onMessage(event)`: read the document name, then the
varuint type tag, and dispatch.  (`message.writeVarString(documentName)`
writes into the incoming message's encoder and does not affect the
decoder, so it has no observable effect here.)  `Auth` runs the auth
adapter; `LoroUpdate` reads one update and imports it when a doc is
configured; `LoroSyncBatch` reads a count and that many updates,
importing each; `LoroEphemeral` reads one payload and applies it when
an ephemeral store is configured; every other tag falls into the
`default` case, which does nothing.  `none` models a decode failure
(reading past the end of the frame). -/
def onMessageModel (cfg : ProviderConfig) (data : List Nat) : Option MsgEffects :=
  match readVarBytes data with
  | none => none
  | some (_documentName, afterName) =>
    match readVarUint afterName with
    | none => none
    | some (t, payload) =>
      if t = MessageType.Auth then
        some { authHandled := true, docImportsSeq := [], ephemeralApplied := [] }
      else if t = MessageType.LoroUpdate then
        match readVarBytes payload with
        | none => none
        | some (u, _) =>
          some { authHandled := false
                 docImportsSeq := if cfg.doc.isSome then [u] else []
                 ephemeralApplied := [] }
      else if t = MessageType.LoroSyncBatch then
        match readVarUint payload with
        | none => none
        | some (count, rest) =>
          match readBatchUpdates count rest with
          | none => none
          | some (us, _) =>
            some { authHandled := false
                   docImportsSeq := if cfg.doc.isSome then us else []
                   ephemeralApplied := [] }
      else if t = MessageType.LoroEphemeral then
        match readVarBytes payload with
        | none => none
        | some (u, _) =>
          some { authHandled := false
                 docImportsSeq := []
                 ephemeralApplied := if cfg.hasEphemeralStore then [u] else [] }
      else
        some { authHandled := false, docImportsSeq := [], ephemeralApplied := [] }

/-- A well-formed `LoroSyncBatch` frame carrying the given updates:
`varstring(name) varuint(LoroSyncBatch) varuint(N) N × varbytes(update)`. -/
def loroSyncBatchFrame (name : Bytes) (us : List Bytes) : Bytes :=
  writeVarBytes name ++ writeVarUint MessageType.LoroSyncBatch ++
    writeVarUint us.length ++ (us.map writeVarBytes).flatten

/- ## Provider lifecycle: `destroy()` -/

/-- The provider fields `destroy()` touches, plus counters for the
side-effecting calls: how often the doc / ephemeral unsubscribe
functions and `clearInterval` were invoked.  `forceSyncHandle` is
`intervals.forceSync`; `unsubDoc` / `unsubEphemeral` hold the
unsubscribe functions (by an identifier) while still present. -/
structure ProviderLifecycle where
  forceSyncHandle : Option Int
  unsubDoc : Option Nat
  unsubEphemeral : Option Nat
  isAttached : Bool
  docUnsubCalls : Nat
  ephUnsubCalls : Nat
  clearIntervalCalls : Nat
deriving DecidableEq, Repr

/-- `LoroProvider.destroy()`: `clearInterval` when a timer handle is
set (the handle field itself is not cleared); call and clear
`unsubDoc` and `unsubEphemeral` when present (a throw inside either is
swallowed); then `detach()`. -/
def destroyProvider (p : ProviderLifecycle) : ProviderLifecycle :=
  let p1 :=
    if p.forceSyncHandle.isSome then
      { p with clearIntervalCalls := p.clearIntervalCalls + 1 }
    else p
  let p2 :=
    match p1.unsubDoc with
    | some _ => { p1 with docUnsubCalls := p1.docUnsubCalls + 1, unsubDoc := none }
    | none => p1
  let p3 :=
    match p2.unsubEphemeral with
    | some _ => { p2 with ephUnsubCalls := p2.ephUnsubCalls + 1, unsubEphemeral := none }
    | none => p2
  { p3 with isAttached := false }

/-- Iterate `destroy()`. -/
def destroyProviderN : Nat → ProviderLifecycle → ProviderLifecycle
  | 0, p => p
  | n + 1, p => destroyProviderN n (destroyProvider p)

/- ## Supporting lemmas -/

theorem filter_ne_erase {α : Type} [DecidableEq α] {l : List α} {o : α} (h : l.Nodup) :
    l.filter (fun c => decide (c ≠ o)) = l.erase o := by
  induction l with
  | nil => rfl
  | cons a t ih =>
    rcases List.nodup_cons.mp h with ⟨ha, ht⟩
    by_cases hao : a = o
    · subst hao
      rw [List.erase_cons_head]
      have h1 : List.filter (fun c => decide (c ≠ a)) (a :: t) =
          List.filter (fun c => decide (c ≠ a)) t := by simp
      rw [h1, List.filter_eq_self.mpr]
      intro c hc
      have : c ≠ a := fun hco => ha (hco ▸ hc)
      simpa using this
    · rw [List.erase_cons_tail (by simp [hao])]
      have ih2 := ih ht
      simp only [ne_eq, decide_not] at ih2 ⊢
      simp [List.filter_cons, hao, ih2]

theorem handleLoroUpdate_doc_connections (d : DocumentState) (u : Bytes) (origin : Option Conn) :
    (handleLoroUpdate d u origin).doc.connections = d.connections := by
  unfold handleLoroUpdate
  cases hld : d.loroDoc with
  | none => rfl
  | some ld => cases h : ld.importUpdate u <;> simp [hld, h]

theorem handleLoroUpdate_sends (d : DocumentState) (u : Bytes) (origin : Option Conn) :
    (handleLoroUpdate d u origin).sends =
      (d.connections.filter (keepConn origin)).map
        (fun c => (c, serverLoroUpdateFrame d.name u)) := by
  unfold handleLoroUpdate
  cases hld : d.loroDoc with
  | none => rfl
  | some ld => cases h : ld.importUpdate u <;> simp [hld, h]

theorem sends_fst_filter (l : List Conn) (p : Conn → Bool) (m : Bytes) :
    ((l.filter p).map (fun c => (c, m))).map Prod.fst = l.filter p := by
  simp [List.map_map]
  exact List.map_id _

theorem keepConn_some (o : Conn) : keepConn (some o) = fun c => decide (c ≠ o) := rfl

theorem keepConn_none : keepConn none = fun _ => true := rfl

theorem applyDirectOps_nonneg (ops : List DirectOp) :
    ∀ d : DocumentState, 0 ≤ d.directConnectionsCount →
      0 ≤ (applyDirectOps d ops).directConnectionsCount := by
  induction ops with
  | nil => intro d h; exact h
  | cons op t ih =>
    intro d h
    cases op with
    | add =>
      refine ih _ ?_
      simp only [addDirectConnection]
      omega
    | remove =>
      refine ih _ ?_
      unfold removeDirectConnection
      split
      · simp
        omega
      · exact h

/- ## Claims about the server `Document` -/

/-- C1: for every server `Document` with connection set `C`, every update
payload `u` and every origin `o ∈ C`, both `handleLoroUpdate(u, o)` and
`broadcastLoroEphemeral(u, o)` enqueue the frame on exactly the
connections `C \ {o}` — `|C| − 1` sends and none to `o` — and with no
origin the frame is enqueued on every connection in `C`. -/
theorem C1_broadcast_origin_elision (d : DocumentState) (u : Bytes) (o : Conn)
    (hnd : d.connections.Nodup) (ho : o ∈ d.connections) :
    ((handleLoroUpdate d u (some o)).sends.map Prod.fst = d.connections.erase o ∧
      (handleLoroUpdate d u (some o)).sends.length + 1 = d.connections.length ∧
      o ∉ (handleLoroUpdate d u (some o)).sends.map Prod.fst) ∧
    ((broadcastLoroEphemeral d u (some o)).sends.map Prod.fst = d.connections.erase o ∧
      (broadcastLoroEphemeral d u (some o)).sends.length + 1 = d.connections.length ∧
      o ∉ (broadcastLoroEphemeral d u (some o)).sends.map Prod.fst) ∧
    (handleLoroUpdate d u none).sends.map Prod.fst = d.connections ∧
    (broadcastLoroEphemeral d u none).sends.map Prod.fst = d.connections := by
  have hh := handleLoroUpdate_sends d u (some o)
  have hh0 := handleLoroUpdate_sends d u none
  have hb : (broadcastLoroEphemeral d u (some o)).sends =
      (d.connections.filter (keepConn (some o))).map
        (fun c => (c, serverLoroEphemeralFrame d.name u)) := rfl
  have hb0 : (broadcastLoroEphemeral d u none).sends =
      (d.connections.filter (keepConn none)).map
        (fun c => (c, serverLoroEphemeralFrame d.name u)) := rfl
  have hfe : d.connections.filter (keepConn (some o)) = d.connections.erase o := by
    rw [keepConn_some]
    exact filter_ne_erase hnd
  have hlen : (d.connections.erase o).length + 1 = d.connections.length :=
    List.length_erase_add_one ho
  have hnm : o ∉ d.connections.erase o := hnd.not_mem_erase
  refine ⟨⟨?_, ?_, ?_⟩, ⟨?_, ?_, ?_⟩, ?_, ?_⟩
  · rw [hh, sends_fst_filter, hfe]
  · rw [hh, List.length_map, hfe]
    exact hlen
  · rw [hh, sends_fst_filter, hfe]
    exact hnm
  · rw [hb, sends_fst_filter, hfe]
  · rw [hb, List.length_map, hfe]
    exact hlen
  · rw [hb, sends_fst_filter, hfe]
    exact hnm
  · rw [hh0, sends_fst_filter, keepConn_none, List.filter_true]
  · rw [hb0, sends_fst_filter, keepConn_none, List.filter_true]

/-- Connection with id 0, for concrete instantiations. -/
def connA : Conn := ⟨0⟩

/-- Connection with id 1, for concrete instantiations. -/
def connB : Conn := ⟨1⟩

/-- Connection with id 2, for concrete instantiations. -/
def connC : Conn := ⟨2⟩

/-- A document with three connections and no replica. -/
def docThree : DocumentState :=
  { name := [100]
    loroUpdates := []
    loroDoc := none
    connections := [connA, connB, connC]
    directConnectionsCount := 0 }

theorem C1_broadcast_origin_elision_witness :
    (docThree.connections.Nodup ∧ connB ∈ docThree.connections) ∧
    (((handleLoroUpdate docThree [5] (some connB)).sends.map Prod.fst =
          docThree.connections.erase connB ∧
        (handleLoroUpdate docThree [5] (some connB)).sends.length + 1 =
          docThree.connections.length ∧
        connB ∉ (handleLoroUpdate docThree [5] (some connB)).sends.map Prod.fst) ∧
      ((broadcastLoroEphemeral docThree [5] (some connB)).sends.map Prod.fst =
          docThree.connections.erase connB ∧
        (broadcastLoroEphemeral docThree [5] (some connB)).sends.length + 1 =
          docThree.connections.length ∧
        connB ∉ (broadcastLoroEphemeral docThree [5] (some connB)).sends.map Prod.fst) ∧
      (handleLoroUpdate docThree [5] none).sends.map Prod.fst = docThree.connections ∧
      (broadcastLoroEphemeral docThree [5] none).sends.map Prod.fst =
        docThree.connections) :=
  ⟨⟨by decide, by decide⟩,
    C1_broadcast_origin_elision docThree [5] connB (by decide) (by decide)⟩

/-- C2: if the server replica's import of `u` throws inside
`handleLoroUpdate`, the error is logged and processing continues: `u`
is still appended to `loroUpdates`, the frame still goes to every
non-origin connection, and the `onLoroUpdate` callback still fires. -/
theorem C2_import_failure_continues (d : DocumentState) (u : Bytes) (o : Option Conn)
    (ld : LoroDocModel) (hld : d.loroDoc = some ld) (hfail : ld.importOk u = false) :
    (handleLoroUpdate d u o).doc.loroUpdates = d.loroUpdates ++ [u] ∧
    (handleLoroUpdate d u o).loggedErrors ≠ [] ∧
    (handleLoroUpdate d u o).sends.map Prod.fst = d.connections.filter (keepConn o) ∧
    (handleLoroUpdate d u o).loroUpdateCallbacks = [(o, u)] := by
  refine ⟨?_, ?_, ?_, ?_⟩
  · unfold handleLoroUpdate
    simp [hld, LoroDocModel.importUpdate, hfail]
  · unfold handleLoroUpdate
    simp [hld, LoroDocModel.importUpdate, hfail]
  · rw [handleLoroUpdate_sends, sends_fst_filter]
  · unfold handleLoroUpdate
    simp [hld, LoroDocModel.importUpdate, hfail]

/-- A replica that rejects every update. -/
def ldFail : LoroDocModel :=
  { imported := []
    importOk := fun _ => false
    exportFn := fun _ => ExportResult.multiple [] }

/-- A document holding `ldFail`, with two connections. -/
def docFail : DocumentState :=
  { name := [100]
    loroUpdates := [[9]]
    loroDoc := some ldFail
    connections := [connA, connB]
    directConnectionsCount := 0 }

theorem C2_import_failure_continues_witness :
    (docFail.loroDoc = some ldFail ∧ ldFail.importOk [5] = false) ∧
    ((handleLoroUpdate docFail [5] (some connA)).doc.loroUpdates =
        docFail.loroUpdates ++ [[5]] ∧
      (handleLoroUpdate docFail [5] (some connA)).loggedErrors ≠ [] ∧
      (handleLoroUpdate docFail [5] (some connA)).sends.map Prod.fst =
        docFail.connections.filter (keepConn (some connA)) ∧
      (handleLoroUpdate docFail [5] (some connA)).loroUpdateCallbacks =
        [(some connA, [5])]) :=
  ⟨⟨rfl, rfl⟩, C2_import_failure_continues docFail [5] (some connA) ldFail rfl rfl⟩

/-- C3: `broadcastLoroEphemeral` changes no document state: the stored
updates, the replica and the connection set are identical before and
after, no callback fires and nothing is logged — the ephemeral payload
never enters the persistence pipeline. -/
theorem C3_ephemeral_not_stored (d : DocumentState) (u : Bytes) (o : Option Conn) :
    (broadcastLoroEphemeral d u o).doc = d ∧
    (broadcastLoroEphemeral d u o).doc.loroUpdates = d.loroUpdates ∧
    (broadcastLoroEphemeral d u o).doc.loroDoc = d.loroDoc ∧
    (broadcastLoroEphemeral d u o).doc.connections = d.connections ∧
    (broadcastLoroEphemeral d u o).loroUpdateCallbacks = [] ∧
    (broadcastLoroEphemeral d u o).loggedErrors = [] :=
  ⟨rfl, rfl, rfl, rfl, rfl, rfl⟩

/-- C4: `exportLoroUpdates` returns the replica's incremental export
(wrapped in a one-element sequence when it is a single byte array)
when a replica and a version vector are given, the replica's full
export (equally wrapped) when no version vector is given, and exactly
the stored `loroUpdates` when no replica is present. -/
theorem C4_export_loro_updates (d : DocumentState) (ld : LoroDocModel) (vv u : Bytes)
    (us : List Bytes) :
    (d.loroDoc = some ld →
      ((ld.exportFn (some vv) = ExportResult.single u →
          (exportLoroUpdates d (some vv)).1 = [u]) ∧
        (ld.exportFn (some vv) = ExportResult.multiple us →
          (exportLoroUpdates d (some vv)).1 = us) ∧
        (ld.exportFn none = ExportResult.single u →
          (exportLoroUpdates d none).1 = [u]) ∧
        (ld.exportFn none = ExportResult.multiple us →
          (exportLoroUpdates d none).1 = us))) ∧
    (d.loroDoc = none →
      ∀ vv2 : Option Bytes, (exportLoroUpdates d vv2).1 = d.loroUpdates) := by
  constructor
  · intro hld
    refine ⟨?_, ?_, ?_, ?_⟩ <;> intro hexp <;> simp [exportLoroUpdates, hld, hexp]
  · intro hld vv2
    cases vv2 <;> simp [exportLoroUpdates, hld]

/-- A replica whose incremental export is a single byte array and whose
full export is an array of two. -/
def ldExp : LoroDocModel :=
  { imported := []
    importOk := fun _ => true
    exportFn := fun o =>
      match o with
      | some _ => ExportResult.single [1]
      | none => ExportResult.multiple [[2], [3]] }

/-- A document holding `ldExp`. -/
def docExp : DocumentState :=
  { name := [100]
    loroUpdates := [[8]]
    loroDoc := some ldExp
    connections := []
    directConnectionsCount := 0 }

/-- A document with no replica and one stored update. -/
def docPlain : DocumentState :=
  { name := [100]
    loroUpdates := [[7]]
    loroDoc := none
    connections := []
    directConnectionsCount := 0 }

theorem C4_export_loro_updates_witness :
    (docExp.loroDoc = some ldExp ∧
      ldExp.exportFn (some [9]) = ExportResult.single [1] ∧
      ldExp.exportFn none = ExportResult.multiple [[2], [3]] ∧
      docPlain.loroDoc = none) ∧
    (exportLoroUpdates docExp (some [9])).1 = [[1]] ∧
    (exportLoroUpdates docExp none).1 = [[2], [3]] ∧
    (exportLoroUpdates docPlain (some [9])).1 = docPlain.loroUpdates :=
  ⟨⟨rfl, rfl, rfl, rfl⟩,
    ((C4_export_loro_updates docExp ldExp [9] [1] [[2], [3]]).1 rfl).1 rfl,
    ((C4_export_loro_updates docExp ldExp [9] [1] [[2], [3]]).1 rfl).2.2.2 rfl,
    (C4_export_loro_updates docPlain ldExp [9] [1] [[2], [3]]).2 rfl (some [9])⟩

/-- C10: starting from construction, any sequence of
`addDirectConnection` / `removeDirectConnection` calls keeps
`directConnectionsCount` non-negative, and `getConnectionsCount()`
always equals `connections.size + directConnectionsCount`. -/
theorem C10_direct_connections_invariant (name : Bytes) (ops : List DirectOp) :
    0 ≤ (applyDirectOps (newDocument name) ops).directConnectionsCount ∧
    getConnectionsCount (applyDirectOps (newDocument name) ops) =
      ((applyDirectOps (newDocument name) ops).connections.length : Int) +
        (applyDirectOps (newDocument name) ops).directConnectionsCount := by
  constructor
  · exact applyDirectOps_nonneg ops _ (by simp [newDocument])
  · rfl

/- ## Claims about the provider -/

theorem readBatchUpdates_write (us : List Bytes) (rest : List Nat) :
    readBatchUpdates us.length ((us.map writeVarBytes).flatten ++ rest) = some (us, rest) := by
  induction us generalizing rest with
  | nil => simp [readBatchUpdates]
  | cons u t ih =>
    simp only [List.length_cons, List.map_cons, List.flatten_cons, List.append_assoc]
    simp [readBatchUpdates, readVarBytes_write, ih]

/-- C5: on every inbound `LoroSyncBatch` frame the provider reads a
varuint count `N` and then exactly `N` length-prefixed updates,
importing each into the doc in the order it was read. -/
theorem C5_sync_batch_imports_in_order (cfg : ProviderConfig) (name : Bytes)
    (us : List Bytes) (h : cfg.doc.isSome = true) :
    onMessageModel cfg (loroSyncBatchFrame name us) =
      some { authHandled := false, docImportsSeq := us, ephemeralApplied := [] } := by
  have hframe : loroSyncBatchFrame name us =
      writeVarBytes name ++ (writeVarUint MessageType.LoroSyncBatch ++
        (writeVarUint us.length ++ ((us.map writeVarBytes).flatten ++ []))) := by
    simp [loroSyncBatchFrame]
  rw [hframe]
  simp only [onMessageModel, readVarBytes_write, readVarUint_write, readBatchUpdates_write]
  simp [MessageType.Auth, MessageType.LoroUpdate, MessageType.LoroSyncBatch, h]

/-- A provider configuration with a doc (whose version JSON is the bytes
of a small JSON object) and an ephemeral store. -/
def cfgFull : ProviderConfig :=
  { name := [110]
    doc := some { hasOplogVersion := true, versionJSONResult := Except.ok [123, 125] }
    hasEphemeralStore := true
    forceSyncInterval := ForceSyncSetting.every 15000 }

theorem C5_sync_batch_imports_in_order_witness :
    cfgFull.doc.isSome = true ∧
    onMessageModel cfgFull (loroSyncBatchFrame [110] [[1], [2, 3], []]) =
      some { authHandled := false
             docImportsSeq := [[1], [2, 3], []]
             ephemeralApplied := [] } :=
  ⟨by decide, C5_sync_batch_imports_in_order cfgFull [110] [[1], [2, 3], []] (by decide)⟩

/-- The version string of claim C6, written from the spec's words: the
JSON serialization of `doc.oplogVersion()` when the replica exposes it
and serialization does not throw, the empty string otherwise. -/
def specVersionString (cfg : ProviderConfig) : Bytes :=
  match cfg.doc with
  | some d =>
    if d.hasOplogVersion then
      match d.versionJSONResult with
      | Except.ok j => j
      | Except.error _ => []
    else []
  | none => []

/-- C6: every `LoroSyncRequest` frame the provider produces is
`varstring(documentName) varuint(LoroSyncRequest) varstring(versionJSON)`,
where the version string is the serialized `doc.oplogVersion()` when
available and the empty string otherwise; a version string is always
written, and decoding the frame recovers the name and the rest. -/
theorem C6_sync_request_frame_layout (cfg : ProviderConfig) :
    startSyncFrame cfg =
      writeVarBytes cfg.name ++ writeVarUint MessageType.LoroSyncRequest ++
        writeVarBytes (specVersionString cfg) ∧
    readVarBytes (startSyncFrame cfg) =
      some (cfg.name, writeVarUint MessageType.LoroSyncRequest ++
        writeVarBytes (specVersionString cfg)) := by
  have h : (startSyncVersionJSON cfg).getD [] = specVersionString cfg := by
    unfold startSyncVersionJSON specVersionString
    cases cfg.doc with
    | none => rfl
    | some d =>
      by_cases hv : d.hasOplogVersion
      · simp only [hv, if_true]
        cases d.versionJSONResult <;> rfl
      · simp [hv]
  constructor
  · unfold startSyncFrame loroSyncRequestMessageGet
    rw [h]
  · unfold startSyncFrame loroSyncRequestMessageGet
    rw [h, List.append_assoc, readVarBytes_write]

/-- A frame whose varuint type tag (7) is none of the known message
kinds, followed by arbitrary payload bytes. -/
def unknownTagFrame : List Nat := writeVarBytes [110] ++ (writeVarUint 7 ++ [1, 2, 3])

/-- C7 counterexample: a frame with the unknown tag 7 is not treated as
a protocol error — `onMessage` returns normally with no effect, and
its outcome is indistinguishable from that of a well-formed empty
`LoroSyncBatch`.  The `default` case of the dispatch does nothing. -/
theorem C7_unknown_tag_counterexample :
    onMessageModel cfgFull unknownTagFrame =
      some { authHandled := false, docImportsSeq := [], ephemeralApplied := [] } ∧
    onMessageModel cfgFull unknownTagFrame ≠ none ∧
    onMessageModel cfgFull unknownTagFrame =
      onMessageModel cfgFull (loroSyncBatchFrame [110] []) := by
  have hleft : onMessageModel cfgFull unknownTagFrame =
      some { authHandled := false, docImportsSeq := [], ephemeralApplied := [] } := by
    simp only [unknownTagFrame, onMessageModel, readVarBytes_write, readVarUint_write]
    simp [MessageType.Auth, MessageType.LoroUpdate, MessageType.LoroSyncBatch,
      MessageType.LoroEphemeral]
  have hframe : loroSyncBatchFrame [110] [] =
      writeVarBytes [110] ++ (writeVarUint MessageType.LoroSyncBatch ++
        (writeVarUint 0 ++ ([] : List Nat))) := by
    simp [loroSyncBatchFrame]
  have hright : onMessageModel cfgFull (loroSyncBatchFrame [110] []) =
      some { authHandled := false, docImportsSeq := [], ephemeralApplied := [] } := by
    rw [hframe]
    simp only [onMessageModel, readVarBytes_write, readVarUint_write]
    simp [MessageType.Auth, MessageType.LoroUpdate, MessageType.LoroSyncBatch,
      readBatchUpdates]
  refine ⟨hleft, by rw [hleft]; simp, by rw [hleft, hright]⟩

/-- C7 (amended): for every inbound frame whose varuint type tag is not
one the provider dispatches on (`Auth`, `LoroUpdate`, `LoroSyncBatch`,
`LoroEphemeral` — including every unknown tag), the provider silently
ignores the frame: the `default` case does nothing, no error is
signalled, and no doc or ephemeral-store call is made. -/
theorem C7_unknown_tag_silently_ignored (cfg : ProviderConfig) (name payload : Bytes)
    (t : Nat) (h1 : t ≠ MessageType.Auth) (h2 : t ≠ MessageType.LoroUpdate)
    (h3 : t ≠ MessageType.LoroSyncBatch) (h4 : t ≠ MessageType.LoroEphemeral) :
    onMessageModel cfg (writeVarBytes name ++ (writeVarUint t ++ payload)) =
      some { authHandled := false, docImportsSeq := [], ephemeralApplied := [] } := by
  simp only [onMessageModel, readVarBytes_write, readVarUint_write]
  simp [h1, h2, h3, h4]

theorem C7_unknown_tag_silently_ignored_witness :
    (7 ≠ MessageType.Auth ∧ 7 ≠ MessageType.LoroUpdate ∧
      7 ≠ MessageType.LoroSyncBatch ∧ 7 ≠ MessageType.LoroEphemeral) ∧
    onMessageModel cfgFull (writeVarBytes [110] ++ (writeVarUint 7 ++ [1, 2, 3])) =
      some { authHandled := false, docImportsSeq := [], ephemeralApplied := [] } :=
  ⟨⟨by decide, by decide, by decide, by decide⟩,
    C7_unknown_tag_silently_ignored cfgFull [110] [1, 2, 3] 7
      (by decide) (by decide) (by decide) (by decide)⟩

/-- The configuration `cfgFull` with the force-sync timer disabled. -/
def cfgOff : ProviderConfig := { cfgFull with forceSyncInterval := ForceSyncSetting.off }

/-- C8: with `forceSyncInterval` a positive number `n` the constructor
registers a periodic timer with period `n` whose tick sends a
`LoroSyncRequest` frame for the provider's document; with
`forceSyncInterval = false` no timer is created (so no periodic sync
request is ever emitted). -/
theorem C8_force_sync_timer (cfg cfgNoTimer : ProviderConfig) (n : Int)
    (hn : cfg.forceSyncInterval = ForceSyncSetting.every n) (hpos : 0 < n)
    (hoff : cfgNoTimer.forceSyncInterval = ForceSyncSetting.off) :
    constructorForceSyncTimer cfg = some n ∧
    forceSyncTick cfg true = [startSyncFrame cfg] ∧
    startSyncFrame cfg =
      writeVarBytes cfg.name ++ writeVarUint MessageType.LoroSyncRequest ++
        writeVarBytes ((startSyncVersionJSON cfg).getD []) ∧
    constructorForceSyncTimer cfgNoTimer = none := by
  refine ⟨?_, rfl, rfl, ?_⟩
  · unfold constructorForceSyncTimer
    rw [hn]
    have : n ≠ 0 := by omega
    simp [this]
  · unfold constructorForceSyncTimer
    rw [hoff]

theorem C8_force_sync_timer_witness :
    (cfgFull.forceSyncInterval = ForceSyncSetting.every 15000 ∧ (0 : Int) < 15000 ∧
      cfgOff.forceSyncInterval = ForceSyncSetting.off) ∧
    (constructorForceSyncTimer cfgFull = some 15000 ∧
      forceSyncTick cfgFull true = [startSyncFrame cfgFull] ∧
      startSyncFrame cfgFull =
        writeVarBytes cfgFull.name ++ writeVarUint MessageType.LoroSyncRequest ++
          writeVarBytes ((startSyncVersionJSON cfgFull).getD []) ∧
      constructorForceSyncTimer cfgOff = none) :=
  ⟨⟨rfl, by decide, rfl⟩, C8_force_sync_timer cfgFull cfgOff 15000 rfl (by decide) rfl⟩

theorem destroyProvider_eq (p : ProviderLifecycle) :
    destroyProvider p =
      { forceSyncHandle := p.forceSyncHandle
        unsubDoc := none
        unsubEphemeral := none
        isAttached := false
        docUnsubCalls := p.docUnsubCalls + (if p.unsubDoc.isSome then 1 else 0)
        ephUnsubCalls := p.ephUnsubCalls + (if p.unsubEphemeral.isSome then 1 else 0)
        clearIntervalCalls :=
          p.clearIntervalCalls + (if p.forceSyncHandle.isSome then 1 else 0) } := by
  unfold destroyProvider
  cases hd : p.unsubDoc <;> cases he : p.unsubEphemeral <;>
    by_cases hf : p.forceSyncHandle.isSome <;>
      simp [hd, he, hf]

theorem destroyProviderN_stable (n : Nat) :
    ∀ q : ProviderLifecycle, q.unsubDoc = none → q.unsubEphemeral = none →
      (destroyProviderN n q).docUnsubCalls = q.docUnsubCalls ∧
      (destroyProviderN n q).ephUnsubCalls = q.ephUnsubCalls := by
  induction n with
  | zero => exact fun q _ _ => ⟨rfl, rfl⟩
  | succ n ih =>
    intro q hd he
    have step : destroyProviderN (n + 1) q = destroyProviderN n (destroyProvider q) := rfl
    have h2 := ih (destroyProvider q) (by rw [destroyProvider_eq]) (by rw [destroyProvider_eq])
    rw [step, h2.1, h2.2, destroyProvider_eq]
    simp [hd, he]

/-- C9: `destroy()` is idempotent: across any sequence of one or more
`destroy()` calls each unsubscribe function present on the provider is
invoked exactly once, and a second `destroy()` leaves the timer handle
and the subscription fields identical to the state after the first. -/
theorem C9_destroy_idempotent (p : ProviderLifecycle) (n : Nat)
    (h0 : p.docUnsubCalls = 0) (h1 : p.ephUnsubCalls = 0) :
    (destroyProviderN (n + 1) p).docUnsubCalls =
      (if p.unsubDoc.isSome then 1 else 0) ∧
    (destroyProviderN (n + 1) p).ephUnsubCalls =
      (if p.unsubEphemeral.isSome then 1 else 0) ∧
    (destroyProvider (destroyProvider p)).forceSyncHandle =
      (destroyProvider p).forceSyncHandle ∧
    (destroyProvider (destroyProvider p)).unsubDoc = (destroyProvider p).unsubDoc ∧
    (destroyProvider (destroyProvider p)).unsubEphemeral =
      (destroyProvider p).unsubEphemeral ∧
    (destroyProvider (destroyProvider p)).isAttached = (destroyProvider p).isAttached := by
  have step : destroyProviderN (n + 1) p = destroyProviderN n (destroyProvider p) := rfl
  have hst := destroyProviderN_stable n (destroyProvider p)
    (by rw [destroyProvider_eq]) (by rw [destroyProvider_eq])
  refine ⟨?_, ?_, ?_, ?_, ?_, ?_⟩
  · rw [step, hst.1, destroyProvider_eq]
    simp [h0]
  · rw [step, hst.2, destroyProvider_eq]
    simp [h1]
  · rw [destroyProvider_eq (destroyProvider p), destroyProvider_eq p]
  · rw [destroyProvider_eq (destroyProvider p), destroyProvider_eq p]
  · rw [destroyProvider_eq (destroyProvider p), destroyProvider_eq p]
  · rw [destroyProvider_eq (destroyProvider p), destroyProvider_eq p]

/-- A provider lifecycle state right after construction: an armed timer,
both subscriptions present, attached, no calls yet. -/
def lifecycleFull : ProviderLifecycle :=
  { forceSyncHandle := some 1
    unsubDoc := some 10
    unsubEphemeral := some 20
    isAttached := true
    docUnsubCalls := 0
    ephUnsubCalls := 0
    clearIntervalCalls := 0 }

theorem C9_destroy_idempotent_witness :
    (lifecycleFull.docUnsubCalls = 0 ∧ lifecycleFull.ephUnsubCalls = 0) ∧
    ((destroyProviderN 2 lifecycleFull).docUnsubCalls =
        (if lifecycleFull.unsubDoc.isSome then 1 else 0) ∧
      (destroyProviderN 2 lifecycleFull).ephUnsubCalls =
        (if lifecycleFull.unsubEphemeral.isSome then 1 else 0) ∧
      (destroyProvider (destroyProvider lifecycleFull)).forceSyncHandle =
        (destroyProvider lifecycleFull).forceSyncHandle ∧
      (destroyProvider (destroyProvider lifecycleFull)).unsubDoc =
        (destroyProvider lifecycleFull).unsubDoc ∧
      (destroyProvider (destroyProvider lifecycleFull)).unsubEphemeral =
        (destroyProvider lifecycleFull).unsubEphemeral ∧
      (destroyProvider (destroyProvider lifecycleFull)).isAttached =
        (destroyProvider lifecycleFull).isAttached) :=
  ⟨⟨rfl, rfl⟩, C9_destroy_idempotent lifecycleFull 1 rfl rfl⟩
